import Mathlib

/-!
Shallow embedding of the two C programs of django-jbank's
`jbank/xmlsec1-examples` directory: `decrypt3.c` and `sign3-sha256.c`.

Both programs are straight-line glue around the xmlsec library.  Every
outcome of a library call (did `xmlParseFile` return NULL, did the parsed
document have a root element, did `xmlSecEncCtxDecrypt` return a negative
value, what is in the result buffer, ...) is an input of the embedding,
collected in environment structures.  Each embedded function returns the
C function's return value (an `Int`, since the programs return `-1`)
together with the ordered trace of its observable events: writes to
standard output, error messages to standard error, library calls made
(initialization, shutdown, resource creation and destruction).

The trace order mirrors the statement order of the C source.
-/

namespace JBank

/-- An in-memory parsed XML document (`xmlDocPtr` that is non-NULL).
For the embedded control flow only one fact about it matters:
whether `xmlDocGetRootElement` returns a non-NULL node. -/
structure Doc where
  hasRoot : Bool
deriving DecidableEq, Repr

/-- An `xmlSecBuffer`: `bufData` models the data pointer
(`none` = NULL pointer), carrying the bytes held by the buffer. -/
structure Buffer where
  bufData : Option (List Nat)
deriving DecidableEq, Repr

/-- `xmlSecBufferGetData`: the buffer's data pointer. -/
def Buffer.getData (b : Buffer) : Option (List Nat) := b.bufData

/-- `xmlSecBufferGetSize`: the number of bytes held by the buffer
(0 when the data pointer is NULL). -/
def Buffer.getSize (b : Buffer) : Nat :=
  match b.bufData with
  | some l => l.length
  | none => 0

/-- The distinct error messages the two programs print to standard
error, one constructor per `fprintf(stderr, ...)` format string in the
source; a constructor carries the file name spliced into the message. -/
inductive ErrMsg where
  | wrongArgs
  | usage
  | secInitFailed
  | versionIncompatible
  | cryptoInitFailed
  | xmlsecCryptoInitFailed
  | mngrCreateFailed
  | mngrInitFailed
  | keyLoadFailed (keyFile : String)
  | keyAdoptFailed (keyFile : String)
  | parseFailed (file : String)
  | startNodeNotFound (file : String)
  | encCtxCreateFailed
  | decryptFailed
  | dsigCtxCreateFailed
  | privKeyLoadFailed (keyFile : String)
  | certLoadFailed (certFile : String)
  | setKeyNameFailed (keyFile : String)
  | signFailed
deriving DecidableEq, Repr

/-- Observable events of a program run, in program order. -/
inductive Event where
  /-- `xmlDocDump(stdout, doc)` -/
  | writeDoc
  /-- `fwrite(data, 1, size, stdout)` of the given bytes -/
  | writeBytes (bs : List Nat)
  /-- `fprintf(stderr, ...)` of the given message -/
  | errMsg (m : ErrMsg)
  /-- `xmlInitParser()` -/
  | initParser
  /-- `xmlSecInit()` -/
  | secInit
  /-- `xmlSecCryptoAppInit(NULL)` -/
  | cryptoAppInit
  /-- `xmlSecCryptoInit()` -/
  | cryptoInit
  /-- `xmlSecCryptoShutdown()` -/
  | cryptoShutdown
  /-- `xmlSecCryptoAppShutdown()` -/
  | cryptoAppShutdown
  /-- `xmlSecShutdown()` -/
  | secShutdown
  /-- `xsltCleanupGlobals()` -/
  | xsltCleanup
  /-- `xmlCleanupParser()` -/
  | cleanupParser
  /-- `xmlParseFile(file)` -/
  | parseFile (file : String)
  /-- `xmlFreeDoc(doc)` -/
  | freeDoc
  /-- `xmlSecKeysMngrCreate()` -/
  | mngrCreate
  /-- `xmlSecCryptoAppDefaultKeysMngrInit(mngr)` -/
  | mngrInit
  /-- `xmlSecCryptoAppKeyLoad(keyFile, xmlSecKeyDataFormatPem, ...)` -/
  | keyLoad (keyFile : String)
  /-- `xmlSecKeySetName(key, keyFile)` -/
  | keySetName (keyFile : String)
  /-- `xmlSecCryptoAppDefaultKeysMngrAdoptKey(mngr, key)` -/
  | keyAdopt
  /-- `xmlSecKeyDestroy(key)` -/
  | keyDestroy
  /-- `xmlSecKeysMngrDestroy(mngr)` -/
  | mngrDestroy
  /-- `xmlSecEncCtxCreate(mngr)` -/
  | encCtxCreate
  /-- `xmlSecEncCtxDestroy(encCtx)` (never emitted by `decrypt3.c`:
  the call in its cleanup block is commented out) -/
  | encCtxDestroy
  /-- `xmlSecEncCtxDecrypt(encCtx, node)` -/
  | decryptCall
  /-- `xmlSecDSigCtxCreate(NULL)` -/
  | dsigCtxCreate
  /-- `xmlSecCryptoAppKeyCertLoad(key, certFile, xmlSecKeyDataFormatPem)` -/
  | certLoad (certFile : String)
  /-- `xmlSecDSigCtxSign(dsigCtx, signNode)` -/
  | signCall
  /-- `xmlSecDSigCtxDestroy(dsigCtx)` -/
  | dsigCtxDestroy
deriving DecidableEq, Repr

/-- Is this event a write to standard output? -/
def Event.isOut : Event → Bool
  | .writeDoc => true
  | .writeBytes _ => true
  | _ => false

/-- The subsequence of a trace that went to standard output. -/
def stdoutOf (t : List Event) : List Event := t.filter Event.isOut

/-- The standard-output events produced by the `fwrite` block of
`decrypt_file` for a result buffer: the buffer's bytes when its data
pointer is non-NULL, nothing otherwise. -/
def bufferWrites (b : Buffer) : List Event :=
  match b.getData with
  | some l => [Event.writeBytes l]
  | none => []

/-- The messages of a trace that went to standard error, in order. -/
def stderrOf (t : List Event) : List ErrMsg :=
  t.filterMap fun e =>
    match e with
    | .errMsg m => some m
    | _ => none

/-- Outcome of the `xmlSecEncCtxDecrypt` call and the fields of the
encryption context it leaves behind (`decrypt3.c` reads
`encCtx->result` and `encCtx->resultReplaced`). -/
structure EncCtxOutcome where
  /-- return value of `xmlSecEncCtxDecrypt` -/
  decryptRet : Int
  /-- `encCtx->result` after the call (`none` = NULL) -/
  result : Option Buffer
  /-- `encCtx->resultReplaced` after the call -/
  resultReplaced : Int
deriving DecidableEq, Repr

/-- Outcomes of the library calls made by `decrypt_file`. -/
structure DecryptEnv where
  /-- result of `xmlParseFile` (`none` = NULL) -/
  parsedDoc : Option Doc
  /-- did `xmlSecFindNode` find the `EncryptedData` node -/
  foundNode : Bool
  /-- did `xmlSecEncCtxCreate` return non-NULL -/
  ctxCreated : Bool
  /-- outcome of the decrypt call -/
  enc : EncCtxOutcome
deriving DecidableEq, Repr

/-- `decrypt_file` of `decrypt3.c` (lines 144-210): parse the file,
find the `EncryptedData` node, create the encryption context, decrypt,
dump the result to standard output; `goto done` on any failure.  In the
cleanup block the `xmlSecEncCtxDestroy` call is commented out, so no
`Event.encCtxDestroy` is ever emitted; the document is freed whenever it
is non-NULL. -/
def decrypt_file (env : DecryptEnv) (enc_file : String) : Int × List Event :=
  match env.parsedDoc with
  | none =>
      (-1, [Event.parseFile enc_file, Event.errMsg (ErrMsg.parseFailed enc_file)])
  | some doc =>
      if doc.hasRoot = false then
        (-1, [Event.parseFile enc_file, Event.errMsg (ErrMsg.parseFailed enc_file),
              Event.freeDoc])
      else if env.foundNode = false then
        (-1, [Event.parseFile enc_file, Event.errMsg (ErrMsg.startNodeNotFound enc_file),
              Event.freeDoc])
      else if env.ctxCreated = false then
        (-1, [Event.parseFile enc_file, Event.encCtxCreate,
              Event.errMsg ErrMsg.encCtxCreateFailed, Event.freeDoc])
      else
        match env.enc.result with
        | none =>
            (-1, [Event.parseFile enc_file, Event.encCtxCreate, Event.decryptCall,
                  Event.errMsg ErrMsg.decryptFailed, Event.freeDoc])
        | some buf =>
            if env.enc.decryptRet < 0 then
              (-1, [Event.parseFile enc_file, Event.encCtxCreate, Event.decryptCall,
                    Event.errMsg ErrMsg.decryptFailed, Event.freeDoc])
            else
              (0, [Event.parseFile enc_file, Event.encCtxCreate, Event.decryptCall]
                   ++ (if env.enc.resultReplaced ≠ 0 then [Event.writeDoc]
                       else match buf.getData with
                            | some l => [Event.writeBytes l]
                            | none => [])
                   ++ [Event.freeDoc])

/-- All conditions under which `decrypt_file` reaches its success path. -/
def decrypt_file_ok (env : DecryptEnv) : Bool :=
  (match env.parsedDoc with
   | some d => d.hasRoot
   | none => false)
  && env.foundNode && env.ctxCreated
  && env.enc.result.isSome && !decide (env.enc.decryptRet < 0)

/-- Outcomes of the library calls made by `create_keys_mngr`. -/
structure KeysMngrEnv where
  /-- did `xmlSecKeysMngrCreate` return non-NULL -/
  createOk : Bool
  /-- did `xmlSecCryptoAppDefaultKeysMngrInit` return `>= 0` -/
  defInitOk : Bool
  /-- did `xmlSecCryptoAppKeyLoad` return non-NULL -/
  keyLoaded : Bool
  /-- did `xmlSecCryptoAppDefaultKeysMngrAdoptKey` return `>= 0` -/
  adoptOk : Bool
deriving DecidableEq, Repr

/-- All conditions under which `create_keys_mngr` returns non-NULL. -/
def KeysMngrEnv.ok (k : KeysMngrEnv) : Bool :=
  k.createOk && k.defInitOk && k.keyLoaded && k.adoptOk

/-- `create_keys_mngr` of `decrypt3.c` (lines 220-256): create the keys
manager, initialize it, load the RSA key from `key_file`, adopt the key
into the manager; on any failure destroy what was created and return
NULL (modelled as `false`).  No `xmlSecKeySetName` call is made. -/
def create_keys_mngr (env : KeysMngrEnv) (key_file : String) : Bool × List Event :=
  if env.createOk = false then
    (false, [Event.mngrCreate, Event.errMsg ErrMsg.mngrCreateFailed])
  else if env.defInitOk = false then
    (false, [Event.mngrCreate, Event.mngrInit, Event.errMsg ErrMsg.mngrInitFailed,
             Event.mngrDestroy])
  else if env.keyLoaded = false then
    (false, [Event.mngrCreate, Event.mngrInit, Event.keyLoad key_file,
             Event.errMsg (ErrMsg.keyLoadFailed key_file), Event.mngrDestroy])
  else if env.adoptOk = false then
    (false, [Event.mngrCreate, Event.mngrInit, Event.keyLoad key_file, Event.keyAdopt,
             Event.errMsg (ErrMsg.keyAdoptFailed key_file), Event.keyDestroy,
             Event.mngrDestroy])
  else
    (true, [Event.mngrCreate, Event.mngrInit, Event.keyLoad key_file, Event.keyAdopt])

/-- Outcomes of the process-wide library initialization calls shared by
both `main` functions. -/
structure LibEnv where
  /-- did `xmlSecInit` return `>= 0` -/
  secInitOk : Bool
  /-- did `xmlSecCheckVersion` return 1 -/
  versionOk : Bool
  /-- did `xmlSecCryptoAppInit` return `>= 0` -/
  cryptoAppInitOk : Bool
  /-- did `xmlSecCryptoInit` return `>= 0` -/
  cryptoInitOk : Bool
deriving DecidableEq, Repr

/-- All library initialization steps succeeded. -/
def LibEnv.ok (l : LibEnv) : Bool :=
  l.secInitOk && l.versionOk && l.cryptoAppInitOk && l.cryptoInitOk

/-- The event trace of the successful initialization sequence of either
`main`: libxml first, then xmlsec, then crypto, then xmlsec-crypto. -/
def initTrace : List Event :=
  [Event.initParser, Event.secInit, Event.cryptoAppInit, Event.cryptoInit]

/-- The event trace of the shutdown sequence of either `main`, in the
reverse order of initialization: xmlsec-crypto, crypto, xmlsec, then
libxslt/libxml. -/
def shutdownTrace : List Event :=
  [Event.cryptoShutdown, Event.cryptoAppShutdown, Event.secShutdown,
   Event.xsltCleanup, Event.cleanupParser]

namespace Decrypt3

/-- `main` of `decrypt3.c` (lines 44-132): `argv` is the full argument
vector (so `argc = argv.length`); returns the process exit code and the
event trace.  `argv[1]` is the encrypted file, `argv[2]` the key file. -/
def main (argv : List String) (lib : LibEnv) (kenv : KeysMngrEnv)
    (denv : DecryptEnv) : Int × List Event :=
  if argv.length ≠ 3 then
    (1, [Event.errMsg ErrMsg.wrongArgs, Event.errMsg ErrMsg.usage])
  else if lib.secInitOk = false then
    (-1, [Event.initParser, Event.secInit, Event.errMsg ErrMsg.secInitFailed])
  else if lib.versionOk = false then
    (-1, [Event.initParser, Event.secInit, Event.errMsg ErrMsg.versionIncompatible])
  else if lib.cryptoAppInitOk = false then
    (-1, [Event.initParser, Event.secInit, Event.cryptoAppInit,
          Event.errMsg ErrMsg.cryptoInitFailed])
  else if lib.cryptoInitOk = false then
    (-1, [Event.initParser, Event.secInit, Event.cryptoAppInit, Event.cryptoInit,
          Event.errMsg ErrMsg.xmlsecCryptoInitFailed])
  else
    let km := create_keys_mngr kenv (argv.getD 2 "")
    if km.1 = false then
      (-1, initTrace ++ km.2)
    else
      let df := decrypt_file denv (argv.getD 1 "")
      if df.1 < 0 then
        (-1, initTrace ++ km.2 ++ df.2 ++ [Event.mngrDestroy])
      else
        (0, initTrace ++ km.2 ++ df.2 ++ [Event.mngrDestroy] ++ shutdownTrace)

end Decrypt3

/-- Outcomes of the library calls made by `sign_file`. -/
structure SignEnv where
  /-- result of `xmlParseFile` (`none` = NULL) -/
  parsedDoc : Option Doc
  /-- did `xmlSecFindNode` find the `Signature` node -/
  foundSignNode : Bool
  /-- did `xmlSecDSigCtxCreate` return non-NULL -/
  ctxCreated : Bool
  /-- did `xmlSecCryptoAppKeyLoad` return non-NULL -/
  keyLoaded : Bool
  /-- did `xmlSecCryptoAppKeyCertLoad` return `>= 0` -/
  certLoaded : Bool
  /-- did `xmlSecKeySetName` return `>= 0` -/
  nameSet : Bool
  /-- return value of `xmlSecDSigCtxSign` -/
  signRet : Int
deriving DecidableEq, Repr

/-- All conditions under which `sign_file` reaches its success path. -/
def sign_file_ok (env : SignEnv) : Bool :=
  (match env.parsedDoc with
   | some d => d.hasRoot
   | none => false)
  && env.foundSignNode && env.ctxCreated && env.keyLoaded && env.certLoaded
  && env.nameSet && !decide (env.signRet < 0)

/-- `sign_file` of `sign3-sha256.c` (lines 138-297), with the `#if 0`
template-building block omitted as in the compiled program: parse the
file, find the `Signature` node, create the signature context, load the
private key, load the certificate into the key, set the key name to the
key file name, sign, dump the signed document to standard output; `goto
done` on any failure.  The cleanup block destroys the signature context
when it was created and frees the document when it is non-NULL. -/
def sign_file (env : SignEnv) (xml_file key_file cert_file : String) :
    Int × List Event :=
  match env.parsedDoc with
  | none =>
      (-1, [Event.parseFile xml_file, Event.errMsg (ErrMsg.parseFailed xml_file)])
  | some doc =>
      if doc.hasRoot = false then
        (-1, [Event.parseFile xml_file, Event.errMsg (ErrMsg.parseFailed xml_file),
              Event.freeDoc])
      else if env.foundSignNode = false then
        (-1, [Event.parseFile xml_file,
              Event.errMsg (ErrMsg.startNodeNotFound xml_file), Event.freeDoc])
      else if env.ctxCreated = false then
        (-1, [Event.parseFile xml_file, Event.dsigCtxCreate,
              Event.errMsg ErrMsg.dsigCtxCreateFailed, Event.freeDoc])
      else if env.keyLoaded = false then
        (-1, [Event.parseFile xml_file, Event.dsigCtxCreate, Event.keyLoad key_file,
              Event.errMsg (ErrMsg.privKeyLoadFailed key_file), Event.dsigCtxDestroy,
              Event.freeDoc])
      else if env.certLoaded = false then
        (-1, [Event.parseFile xml_file, Event.dsigCtxCreate, Event.keyLoad key_file,
              Event.certLoad cert_file, Event.errMsg (ErrMsg.certLoadFailed cert_file),
              Event.dsigCtxDestroy, Event.freeDoc])
      else if env.nameSet = false then
        (-1, [Event.parseFile xml_file, Event.dsigCtxCreate, Event.keyLoad key_file,
              Event.certLoad cert_file, Event.keySetName key_file,
              Event.errMsg (ErrMsg.setKeyNameFailed key_file), Event.dsigCtxDestroy,
              Event.freeDoc])
      else if env.signRet < 0 then
        (-1, [Event.parseFile xml_file, Event.dsigCtxCreate, Event.keyLoad key_file,
              Event.certLoad cert_file, Event.keySetName key_file, Event.signCall,
              Event.errMsg ErrMsg.signFailed, Event.dsigCtxDestroy, Event.freeDoc])
      else
        (0, [Event.parseFile xml_file, Event.dsigCtxCreate, Event.keyLoad key_file,
             Event.certLoad cert_file, Event.keySetName key_file, Event.signCall,
             Event.writeDoc, Event.dsigCtxDestroy, Event.freeDoc])

namespace Sign3

/-- `main` of `sign3-sha256.c` (lines 47-124): `argv` is the full
argument vector (so `argc = argv.length`); `argv[1]` is the XML file,
`argv[2]` the key file, `argv[3]` the certificate file. -/
def main (argv : List String) (lib : LibEnv) (senv : SignEnv) : Int × List Event :=
  if argv.length ≠ 4 then
    (1, [Event.errMsg ErrMsg.wrongArgs, Event.errMsg ErrMsg.usage])
  else if lib.secInitOk = false then
    (-1, [Event.initParser, Event.secInit, Event.errMsg ErrMsg.secInitFailed])
  else if lib.versionOk = false then
    (-1, [Event.initParser, Event.secInit, Event.errMsg ErrMsg.versionIncompatible])
  else if lib.cryptoAppInitOk = false then
    (-1, [Event.initParser, Event.secInit, Event.cryptoAppInit,
          Event.errMsg ErrMsg.cryptoInitFailed])
  else if lib.cryptoInitOk = false then
    (-1, [Event.initParser, Event.secInit, Event.cryptoAppInit, Event.cryptoInit,
          Event.errMsg ErrMsg.xmlsecCryptoInitFailed])
  else
    let sf := sign_file senv (argv.getD 1 "") (argv.getD 2 "") (argv.getD 3 "")
    if sf.1 < 0 then
      (-1, initTrace ++ sf.2)
    else
      (0, initTrace ++ sf.2 ++ shutdownTrace)

end Sign3

/-! ### Concrete environments used by witnesses and counterexamples -/

/-- All library initialization calls succeed. -/
def okLib : LibEnv := ⟨true, true, true, true⟩

/-- All keys-manager calls succeed. -/
def okKeysMngr : KeysMngrEnv := ⟨true, true, true, true⟩

/-- A fully successful decrypt run: XML replaced in place is off, the
result buffer holds three bytes. -/
def okDecrypt : DecryptEnv := ⟨some ⟨true⟩, true, true, ⟨0, some ⟨some [1, 2, 3]⟩, 0⟩⟩

/-- A fully successful sign run. -/
def okSign : SignEnv := ⟨some ⟨true⟩, true, true, true, true, true, 0⟩

/-- A concrete argument vector for the decrypt program. -/
def argvDec : List String := ["decrypt3", "enc.xml", "key.pem"]

/-- A concrete argument vector for the sign program. -/
def argvSig : List String := ["sign3", "doc.xml", "key.pem", "cert.pem"]

/-- `xmlParseFile` returns NULL; everything else would succeed. -/
def noParseDecrypt : DecryptEnv := ⟨none, true, true, ⟨0, some ⟨some []⟩, 0⟩⟩

/-- The document parses but holds no `EncryptedData` node. -/
def noNodeDecrypt : DecryptEnv := ⟨some ⟨true⟩, false, true, ⟨0, some ⟨some []⟩, 0⟩⟩

/-- The key file fails to load; the other keys-manager calls succeed. -/
def badKeyMngr : KeysMngrEnv := ⟨true, true, false, true⟩

/-- The decrypt call itself fails, leaving a NULL result. -/
def failDecrypt : DecryptEnv := ⟨some ⟨true⟩, true, true, ⟨-1, none, 0⟩⟩

/-- The decrypt call returns success yet leaves a NULL result. -/
def nullResultDecrypt : DecryptEnv := ⟨some ⟨true⟩, true, true, ⟨0, none, 0⟩⟩

/-- A successful binary (non-replaced) decrypt whose result buffer has a
NULL data pointer. -/
def nullDataDecrypt : DecryptEnv := ⟨some ⟨true⟩, true, true, ⟨0, some ⟨none⟩, 0⟩⟩

/-- The document parses but has no root element (decrypt). -/
def rootlessDecrypt : DecryptEnv := ⟨some ⟨false⟩, true, true, ⟨0, some ⟨some []⟩, 0⟩⟩

/-- The document parses but has no root element (sign). -/
def rootlessSign : SignEnv := ⟨some ⟨false⟩, true, true, true, true, true, 0⟩

/-- `xmlParseFile` returns NULL (sign). -/
def noParseSign : SignEnv := ⟨none, true, true, true, true, true, 0⟩

/-- The private key fails to load (sign). -/
def badKeySign : SignEnv := ⟨some ⟨true⟩, true, true, false, true, true, 0⟩

/-- The document holds no `Signature` node (sign). -/
def noNodeSign : SignEnv := ⟨some ⟨true⟩, false, true, true, true, true, 0⟩

/-! ### Helper lemmas -/

theorem decrypt_file_ret (env : DecryptEnv) (f : String) :
    (decrypt_file env f).1 = if decrypt_file_ok env then 0 else -1 := by
  rcases env with ⟨pd, fn, cc, dr, res, rr⟩
  rcases pd with _ | ⟨⟨hr⟩⟩
  · simp [decrypt_file, decrypt_file_ok]
  · cases hr <;> cases fn <;> cases cc <;> rcases res with _ | b <;>
      simp [decrypt_file, decrypt_file_ok] <;>
      by_cases hdr : dr < 0 <;> simp [hdr] <;> split <;> omega

theorem create_keys_mngr_ret (env : KeysMngrEnv) (f : String) :
    (create_keys_mngr env f).1 = env.ok := by
  rcases env with ⟨a, b, c, d⟩
  cases a <;> cases b <;> cases c <;> cases d <;>
    simp [create_keys_mngr, KeysMngrEnv.ok]

theorem sign_file_ret (env : SignEnv) (x k c : String) :
    (sign_file env x k c).1 = if sign_file_ok env then 0 else -1 := by
  rcases env with ⟨pd, fn, cc, kl, cl, ns, sr⟩
  rcases pd with _ | ⟨⟨hr⟩⟩
  · simp [sign_file, sign_file_ok]
  · cases hr <;> cases fn <;> cases cc <;> cases kl <;> cases cl <;> cases ns <;>
      simp [sign_file, sign_file_ok] <;>
      by_cases hsr : sr < 0 <;> simp [hsr] <;> split <;> omega

theorem decrypt3_main_ret (argv : List String) (lib : LibEnv)
    (kenv : KeysMngrEnv) (denv : DecryptEnv) :
    (Decrypt3.main argv lib kenv denv).1 =
      if argv.length ≠ 3 then 1
      else if lib.ok && kenv.ok && decrypt_file_ok denv then 0 else -1 := by
  rcases lib with ⟨s, v, a, c⟩
  by_cases h : argv.length = 3
  · by_cases hk : kenv.ok <;> by_cases hd : decrypt_file_ok denv <;>
      cases s <;> cases v <;> cases a <;> cases c <;>
      simp [Decrypt3.main, LibEnv.ok, h, hk, hd, create_keys_mngr_ret,
            decrypt_file_ret]
  · simp [Decrypt3.main, h]

theorem sign3_main_ret (argv : List String) (lib : LibEnv) (senv : SignEnv) :
    (Sign3.main argv lib senv).1 =
      if argv.length ≠ 4 then 1
      else if lib.ok && sign_file_ok senv then 0 else -1 := by
  rcases lib with ⟨s, v, a, c⟩
  by_cases h : argv.length = 4
  · by_cases hsf : sign_file_ok senv <;>
      cases s <;> cases v <;> cases a <;> cases c <;>
      simp [Sign3.main, LibEnv.ok, h, hsf, sign_file_ret]
  · simp [Sign3.main, h]

theorem stdoutOf_append (a b : List Event) :
    stdoutOf (a ++ b) = stdoutOf a ++ stdoutOf b :=
  List.filter_append ..

theorem stdoutOf_initTrace : stdoutOf initTrace = [] := rfl

theorem stdoutOf_shutdownTrace : stdoutOf shutdownTrace = [] := rfl

theorem stdoutOf_create_keys_mngr (env : KeysMngrEnv) (f : String) :
    stdoutOf (create_keys_mngr env f).2 = [] := by
  rcases env with ⟨a, b, c, d⟩
  cases a <;> cases b <;> cases c <;> cases d <;>
    simp [create_keys_mngr, stdoutOf, Event.isOut]

theorem isOut_create_keys_mngr (env : KeysMngrEnv) (f : String) :
    ∀ e ∈ (create_keys_mngr env f).2, Event.isOut e = false := by
  rcases env with ⟨a, b, c, d⟩
  cases a <;> cases b <;> cases c <;> cases d <;>
    simp [create_keys_mngr, Event.isOut]

theorem stdoutOf_decrypt_file_fail (env : DecryptEnv) (f : String)
    (h : decrypt_file_ok env = false) :
    stdoutOf (decrypt_file env f).2 = [] := by
  rcases env with ⟨pd, fn, cc, dr, res, rr⟩
  rcases pd with _ | ⟨⟨hr⟩⟩
  · simp [decrypt_file, stdoutOf, Event.isOut]
  · cases hr <;> cases fn <;> cases cc <;> rcases res with _ | b <;>
      simp_all [decrypt_file, decrypt_file_ok, stdoutOf, Event.isOut]

theorem stdoutOf_sign_file_fail (env : SignEnv) (x k c : String)
    (h : sign_file_ok env = false) :
    stdoutOf (sign_file env x k c).2 = [] := by
  rcases env with ⟨pd, fn, cc, kl, cl, ns, sr⟩
  rcases pd with _ | ⟨⟨hr⟩⟩
  · simp [sign_file, stdoutOf, Event.isOut]
  · cases hr <;> cases fn <;> cases cc <;> cases kl <;> cases cl <;> cases ns <;>
      simp_all [sign_file, sign_file_ok, stdoutOf, Event.isOut]

theorem stdoutOf_decrypt3_main (argv : List String) (lib : LibEnv)
    (kenv : KeysMngrEnv) (denv : DecryptEnv) :
    stdoutOf (Decrypt3.main argv lib kenv denv).2 =
      if argv.length = 3 ∧ lib.ok = true ∧ kenv.ok = true then
        stdoutOf (decrypt_file denv (argv.getD 1 "")).2
      else [] := by
  rcases lib with ⟨s, v, a, c⟩
  by_cases h : argv.length = 3
  · by_cases hk : kenv.ok
    · cases s <;> cases v <;> cases a <;> cases c <;>
        simp [Decrypt3.main, LibEnv.ok, h, hk, create_keys_mngr_ret,
              stdoutOf, Event.isOut] <;>
        split <;>
        simp [stdoutOf_append, stdoutOf_create_keys_mngr, initTrace,
              shutdownTrace, stdoutOf, Event.isOut] <;>
        exact isOut_create_keys_mngr _ _
    · cases s <;> cases v <;> cases a <;> cases c <;>
        simp [Decrypt3.main, LibEnv.ok, h, hk, create_keys_mngr_ret,
              stdoutOf_append, stdoutOf_create_keys_mngr, initTrace,
              stdoutOf, Event.isOut] <;>
        exact isOut_create_keys_mngr _ _
  · simp [Decrypt3.main, h, stdoutOf, Event.isOut]

theorem stdoutOf_sign3_main (argv : List String) (lib : LibEnv)
    (senv : SignEnv) :
    stdoutOf (Sign3.main argv lib senv).2 =
      if argv.length = 4 ∧ lib.ok = true then
        stdoutOf (sign_file senv (argv.getD 1 "") (argv.getD 2 "") (argv.getD 3 "")).2
      else [] := by
  rcases lib with ⟨s, v, a, c⟩
  by_cases h : argv.length = 4
  · cases s <;> cases v <;> cases a <;> cases c <;>
      simp [Sign3.main, LibEnv.ok, h, stdoutOf, Event.isOut] <;>
      split <;>
      simp [stdoutOf_append, initTrace, shutdownTrace, stdoutOf, Event.isOut]
  · simp [Sign3.main, h, stdoutOf, Event.isOut]

theorem decrypt3_main_trace (argv : List String) (lib : LibEnv)
    (kenv : KeysMngrEnv) (denv : DecryptEnv)
    (ha : argv.length = 3) (hl : lib.ok = true) (hk : kenv.ok = true) :
    (Decrypt3.main argv lib kenv denv).2 =
      initTrace ++ (create_keys_mngr kenv (argv.getD 2 "")).2
        ++ (decrypt_file denv (argv.getD 1 "")).2 ++ [Event.mngrDestroy]
        ++ (if (decrypt_file denv (argv.getD 1 "")).1 < 0 then []
            else shutdownTrace) := by
  rcases lib with ⟨lb1, lb2, lb3, lb4⟩
  simp only [LibEnv.ok, Bool.and_eq_true] at hl
  obtain ⟨⟨⟨rfl, rfl⟩, rfl⟩, rfl⟩ := hl
  simp [Decrypt3.main, ha, create_keys_mngr_ret, hk]
  split <;> simp

theorem mem_stderrOf (m : ErrMsg) (t : List Event) :
    m ∈ stderrOf t ↔ Event.errMsg m ∈ t := by
  induction t with
  | nil => simp [stderrOf]
  | cons e t ih => cases e <;> simp_all [stderrOf]

theorem decrypt_file_stdout_char (env : DecryptEnv) (f : String) (b : Buffer)
    (h : (decrypt_file env f).1 = 0) (hb : env.enc.result = some b) :
    stdoutOf (decrypt_file env f).2 =
      if env.enc.resultReplaced ≠ 0 then [Event.writeDoc] else bufferWrites b := by
  rcases env with ⟨pd, fn, cc, dr, res, rr⟩
  rcases pd with _ | ⟨⟨hr⟩⟩
  · simp [decrypt_file] at h
  · rcases res with _ | b2
    · cases hr <;> cases fn <;> cases cc <;> simp [decrypt_file] at h
    · have hbb : b2 = b := by simpa using hb
      subst hbb
      cases hr <;> cases fn <;> cases cc <;> simp [decrypt_file] at h ⊢ <;>
        by_cases hdr : dr < 0 <;> simp [hdr] at h ⊢ <;>
        by_cases hrr : rr = 0 <;>
        rcases b2 with ⟨_ | l⟩ <;>
        simp [hrr, stdoutOf, Event.isOut, bufferWrites, Buffer.getData]

/-! ### Claims -/

/-- C1: for every invocation of the decrypt program, the process exits
with status 0 when the decrypt operation succeeds, with status 1 when
the argument count is not exactly 3, and with status -1 when any library
initialization, key-manager creation, parse, or decrypt step fails; the
sign program follows the same pattern with an argument count of exactly
4. -/
theorem exit_code_contract (argv1 argv2 : List String) (lib1 lib2 : LibEnv)
    (kenv : KeysMngrEnv) (denv : DecryptEnv) (senv : SignEnv) :
    ((Decrypt3.main argv1 lib1 kenv denv).1 = 1 ↔ argv1.length ≠ 3)
  ∧ ((Decrypt3.main argv1 lib1 kenv denv).1 = 0 ↔
      (argv1.length = 3 ∧ lib1.ok = true ∧ kenv.ok = true ∧
        decrypt_file_ok denv = true))
  ∧ ((Decrypt3.main argv1 lib1 kenv denv).1 = -1 ↔
      (argv1.length = 3 ∧
        ¬(lib1.ok = true ∧ kenv.ok = true ∧ decrypt_file_ok denv = true)))
  ∧ ((Sign3.main argv2 lib2 senv).1 = 1 ↔ argv2.length ≠ 4)
  ∧ ((Sign3.main argv2 lib2 senv).1 = 0 ↔
      (argv2.length = 4 ∧ lib2.ok = true ∧ sign_file_ok senv = true))
  ∧ ((Sign3.main argv2 lib2 senv).1 = -1 ↔
      (argv2.length = 4 ∧ ¬(lib2.ok = true ∧ sign_file_ok senv = true))) := by
  simp only [decrypt3_main_ret, sign3_main_ret]
  by_cases h1 : argv1.length = 3 <;> by_cases h2 : argv2.length = 4 <;>
    by_cases hl1 : lib1.ok <;> by_cases hk : kenv.ok <;>
    by_cases hd : decrypt_file_ok denv <;>
    by_cases hl2 : lib2.ok <;> by_cases hs : sign_file_ok senv <;>
    simp_all

/-- C2: for every successful run of the decrypt operation, exactly one
of two outputs goes to standard output: if the decrypted payload
replaced the encrypted node (the result-replaced flag is non-zero), the
whole modified document is dumped; otherwise the raw decrypted bytes of
the result buffer are written. -/
theorem decrypt_success_output (denv : DecryptEnv) (f : String)
    (h : (decrypt_file denv f).1 = 0) :
    ∃ b, denv.enc.result = some b ∧
      stdoutOf (decrypt_file denv f).2 =
        (if denv.enc.resultReplaced ≠ 0 then [Event.writeDoc]
         else bufferWrites b) := by
  rcases denv with ⟨pd, fn, cc, dr, res, rr⟩
  rcases pd with _ | ⟨⟨hr⟩⟩
  · simp [decrypt_file] at h
  · rcases res with _ | b
    · cases hr <;> cases fn <;> cases cc <;> simp [decrypt_file] at h
    · cases hr <;> cases fn <;> cases cc <;> simp [decrypt_file] at h ⊢ <;>
        by_cases hdr : dr < 0 <;> simp [hdr] at h ⊢ <;>
        by_cases hrr : rr = 0 <;>
        rcases b with ⟨_ | l⟩ <;>
        simp [hrr, stdoutOf, Event.isOut, bufferWrites, Buffer.getData]

/-- Witness for C2 at the concrete successful environment. -/
theorem decrypt_success_output_witness :
    ∃ b, okDecrypt.enc.result = some b ∧
      stdoutOf (decrypt_file okDecrypt "enc.xml").2 =
        (if okDecrypt.enc.resultReplaced ≠ 0 then [Event.writeDoc]
         else bufferWrites b) :=
  decrypt_success_output okDecrypt "enc.xml" (by decide)

/-- C3: each of the four failure conditions of the decrypt program —
unparsable XML, missing encrypted-data node, key load failure, and
decryption failure — causes a distinct error message on standard error
and a negative return from the failing function, leading to a non-zero
process exit; no failure condition shares its message with another. -/
theorem decrypt_failure_reporting
    (f g : String) (argv : List String) (lib : LibEnv)
    (denv1 denv2 denv3 denv4 : DecryptEnv) (kenv kenv2 : KeysMngrEnv)
    (ha : argv.length = 3)
    (h1 : denv1.parsedDoc = none ∨ denv1.parsedDoc = some ⟨false⟩)
    (h2a : denv2.parsedDoc = some ⟨true⟩) (h2b : denv2.foundNode = false)
    (h3a : kenv.createOk = true) (h3b : kenv.defInitOk = true)
    (h3c : kenv.keyLoaded = false)
    (h4a : denv3.parsedDoc = some ⟨true⟩) (h4b : denv3.foundNode = true)
    (h4c : denv3.ctxCreated = true)
    (h4d : denv3.enc.decryptRet < 0 ∨ denv3.enc.result = none) :
    ((decrypt_file denv1 f).1 = -1
      ∧ ErrMsg.parseFailed f ∈ stderrOf (decrypt_file denv1 f).2
      ∧ (Decrypt3.main argv lib kenv2 denv1).1 ≠ 0)
  ∧ ((decrypt_file denv2 f).1 = -1
      ∧ ErrMsg.startNodeNotFound f ∈ stderrOf (decrypt_file denv2 f).2
      ∧ (Decrypt3.main argv lib kenv2 denv2).1 ≠ 0)
  ∧ ((create_keys_mngr kenv g).1 = false
      ∧ ErrMsg.keyLoadFailed g ∈ stderrOf (create_keys_mngr kenv g).2
      ∧ (Decrypt3.main argv lib kenv denv4).1 ≠ 0)
  ∧ ((decrypt_file denv3 f).1 = -1
      ∧ ErrMsg.decryptFailed ∈ stderrOf (decrypt_file denv3 f).2
      ∧ (Decrypt3.main argv lib kenv2 denv3).1 ≠ 0)
  ∧ (ErrMsg.parseFailed f ≠ ErrMsg.startNodeNotFound g
      ∧ ErrMsg.parseFailed f ≠ ErrMsg.keyLoadFailed g
      ∧ ErrMsg.parseFailed f ≠ ErrMsg.decryptFailed
      ∧ ErrMsg.startNodeNotFound f ≠ ErrMsg.keyLoadFailed g
      ∧ ErrMsg.startNodeNotFound f ≠ ErrMsg.decryptFailed
      ∧ ErrMsg.keyLoadFailed f ≠ ErrMsg.decryptFailed) := by
  refine ⟨⟨?_, ?_, ?_⟩, ⟨?_, ?_, ?_⟩, ⟨?_, ?_, ?_⟩, ⟨?_, ?_, ?_⟩, by simp⟩
  · rcases h1 with h | h <;> simp [decrypt_file, h]
  · rcases h1 with h | h <;> simp [decrypt_file, h, mem_stderrOf]
  · rcases h1 with h | h <;>
      simp [decrypt3_main_ret, ha, decrypt_file_ok, h]
  · simp [decrypt_file, h2a, h2b]
  · simp [decrypt_file, h2a, h2b, mem_stderrOf]
  · simp [decrypt3_main_ret, ha, decrypt_file_ok, h2a, h2b]
  · simp [create_keys_mngr, h3a, h3b, h3c]
  · simp [create_keys_mngr, h3a, h3b, h3c, mem_stderrOf]
  · simp [decrypt3_main_ret, ha, KeysMngrEnv.ok, h3c]
  · rcases h4d with h | h
    · rcases hres : denv3.enc.result with _ | b <;>
        simp [decrypt_file, h4a, h4b, h4c, h, hres]
    · simp [decrypt_file, h4a, h4b, h4c, h]
  · rcases h4d with h | h
    · rcases hres : denv3.enc.result with _ | b <;>
        simp [decrypt_file, h4a, h4b, h4c, h, hres, mem_stderrOf]
    · simp [decrypt_file, h4a, h4b, h4c, h, mem_stderrOf]
  · rcases h4d with h | h <;>
      simp [decrypt3_main_ret, ha, decrypt_file_ok, h4a, h4b, h4c, h]

/-- Witness for C3: the four failure conditions realized on concrete
environments. -/
theorem decrypt_failure_reporting_witness :
    ((decrypt_file noParseDecrypt "enc.xml").1 = -1
      ∧ ErrMsg.parseFailed "enc.xml" ∈ stderrOf (decrypt_file noParseDecrypt "enc.xml").2
      ∧ (Decrypt3.main argvDec okLib okKeysMngr noParseDecrypt).1 ≠ 0)
  ∧ ((decrypt_file noNodeDecrypt "enc.xml").1 = -1
      ∧ ErrMsg.startNodeNotFound "enc.xml" ∈ stderrOf (decrypt_file noNodeDecrypt "enc.xml").2
      ∧ (Decrypt3.main argvDec okLib okKeysMngr noNodeDecrypt).1 ≠ 0)
  ∧ ((create_keys_mngr badKeyMngr "key.pem").1 = false
      ∧ ErrMsg.keyLoadFailed "key.pem" ∈ stderrOf (create_keys_mngr badKeyMngr "key.pem").2
      ∧ (Decrypt3.main argvDec okLib badKeyMngr okDecrypt).1 ≠ 0)
  ∧ ((decrypt_file failDecrypt "enc.xml").1 = -1
      ∧ ErrMsg.decryptFailed ∈ stderrOf (decrypt_file failDecrypt "enc.xml").2
      ∧ (Decrypt3.main argvDec okLib okKeysMngr failDecrypt).1 ≠ 0)
  ∧ (ErrMsg.parseFailed "enc.xml" ≠ ErrMsg.startNodeNotFound "key.pem"
      ∧ ErrMsg.parseFailed "enc.xml" ≠ ErrMsg.keyLoadFailed "key.pem"
      ∧ ErrMsg.parseFailed "enc.xml" ≠ ErrMsg.decryptFailed
      ∧ ErrMsg.startNodeNotFound "enc.xml" ≠ ErrMsg.keyLoadFailed "key.pem"
      ∧ ErrMsg.startNodeNotFound "enc.xml" ≠ ErrMsg.decryptFailed
      ∧ ErrMsg.keyLoadFailed "enc.xml" ≠ ErrMsg.decryptFailed) :=
  decrypt_failure_reporting "enc.xml" "key.pem" argvDec okLib
    noParseDecrypt noNodeDecrypt failDecrypt okDecrypt badKeyMngr okKeysMngr
    (by decide) (by decide) (by decide) (by decide) (by decide) (by decide)
    (by decide) (by decide) (by decide) (by decide) (by decide)

/-- C4 counterexample: in a fully successful run of the decrypt program
the encryption context is acquired (`xmlSecEncCtxCreate`) but never
released before return — the `xmlSecEncCtxDestroy` call in the cleanup
block of `decrypt_file` is commented out — refuting the claim that every
acquired resource is released on every exit path. -/
theorem resource_release_counterexample :
    (Decrypt3.main argvDec okLib okKeysMngr okDecrypt).1 = 0
  ∧ Event.encCtxCreate ∈ (Decrypt3.main argvDec okLib okKeysMngr okDecrypt).2
  ∧ Event.encCtxDestroy ∉ (Decrypt3.main argvDec okLib okKeysMngr okDecrypt).2 := by
  decide

/-- C4 (amended): on every exit path the parsed document, the key
manager, and the sign program's signature context are released before
return; the decrypt program's encryption context is the one exception —
its destroy call is commented out, so it is never released. -/
theorem resource_release_amended
    (f x k c : String) (argv : List String) (lib : LibEnv)
    (kenv : KeysMngrEnv) (denv : DecryptEnv) (senv senv2 : SignEnv)
    (d d2 : Doc)
    (hd : denv.parsedDoc = some d)
    (hs : senv.parsedDoc = some d2)
    (hp : senv2.parsedDoc = some ⟨true⟩) (hn : senv2.foundSignNode = true)
    (hc : senv2.ctxCreated = true)
    (ha : argv.length = 3) (hl : lib.ok = true) (hk : kenv.ok = true) :
    Event.freeDoc ∈ (decrypt_file denv f).2
  ∧ Event.freeDoc ∈ (sign_file senv x k c).2
  ∧ Event.dsigCtxDestroy ∈ (sign_file senv2 x k c).2
  ∧ Event.mngrDestroy ∈ (Decrypt3.main argv lib kenv denv).2
  ∧ Event.encCtxDestroy ∉ (decrypt_file denv f).2 := by
  refine ⟨?_, ?_, ?_, ?_, ?_⟩
  · rcases denv with ⟨pd, fn, cc, dr, res, rr⟩
    subst hd
    rcases d with ⟨hr⟩
    cases hr <;> cases fn <;> cases cc <;> rcases res with _ | b <;>
      simp [decrypt_file] <;>
      by_cases hdr : dr < 0 <;> simp [hdr]
  · rcases senv with ⟨pd, fn, cc, kl, cl, ns, sr⟩
    subst hs
    rcases d2 with ⟨hr⟩
    cases hr <;> cases fn <;> cases cc <;> cases kl <;> cases cl <;> cases ns <;>
      simp [sign_file] <;>
      by_cases hsr : sr < 0 <;> simp [hsr]
  · rcases senv2 with ⟨pd, fn, cc, kl, cl, ns, sr⟩
    subst hp
    subst hn
    subst hc
    cases kl <;> cases cl <;> cases ns <;>
      simp [sign_file] <;>
      by_cases hsr : sr < 0 <;> simp [hsr]
  · rcases lib with ⟨s, v, a2, c2⟩
    simp only [LibEnv.ok, Bool.and_eq_true] at hl
    obtain ⟨⟨⟨hs1, hv⟩, ha2⟩, hc2⟩ := hl
    subst hs1
    subst hv
    subst ha2
    subst hc2
    simp only [Decrypt3.main, ha, create_keys_mngr_ret, hk]
    simp only [ne_eq, not_true_eq_false, Bool.true_eq_false, if_false,
               ite_false, ite_true, reduceIte]
    split <;> simp
  · rcases denv with ⟨pd, fn, cc, dr, res, rr⟩
    subst hd
    rcases d with ⟨hr⟩
    cases hr <;> cases fn <;> cases cc <;> rcases res with _ | ⟨_ | l⟩ <;>
      simp [decrypt_file] <;>
      by_cases hdr : dr < 0 <;> simp [hdr] <;>
      by_cases hrr : rr = 0 <;> simp [hrr, Buffer.getData]

/-- Witness for the amended C4 at concrete successful environments. -/
theorem resource_release_amended_witness :
    Event.freeDoc ∈ (decrypt_file okDecrypt "enc.xml").2
  ∧ Event.freeDoc ∈ (sign_file okSign "doc.xml" "key.pem" "cert.pem").2
  ∧ Event.dsigCtxDestroy ∈ (sign_file okSign "doc.xml" "key.pem" "cert.pem").2
  ∧ Event.mngrDestroy ∈ (Decrypt3.main argvDec okLib okKeysMngr okDecrypt).2
  ∧ Event.encCtxDestroy ∉ (decrypt_file okDecrypt "enc.xml").2 :=
  resource_release_amended "enc.xml" "doc.xml" "key.pem" "cert.pem" argvDec
    okLib okKeysMngr okDecrypt okSign okSign ⟨true⟩ ⟨true⟩
    (by decide) (by decide) (by decide) (by decide) (by decide) (by decide)
    (by decide) (by decide)

/-- C5: for every run of either tool in which the key file fails to
load, or the expected signature/encryption element is missing from the
input document, the process exits with non-zero status having written
nothing at all to standard output. -/
theorem no_partial_output_on_failure
    (argv1 argv2 argv3 argv4 : List String) (lib1 lib2 lib3 lib4 : LibEnv)
    (kenv1 kenv2 : KeysMngrEnv) (denv1 denv2 : DecryptEnv)
    (senv1 senv2 : SignEnv)
    (ha1 : argv1.length = 3) (hk1 : kenv1.keyLoaded = false)
    (ha2 : argv2.length = 3) (hn2 : denv2.foundNode = false)
    (ha3 : argv3.length = 4) (hk3 : senv1.keyLoaded = false)
    (ha4 : argv4.length = 4) (hn4 : senv2.foundSignNode = false) :
    ((Decrypt3.main argv1 lib1 kenv1 denv1).1 ≠ 0
      ∧ stdoutOf (Decrypt3.main argv1 lib1 kenv1 denv1).2 = [])
  ∧ ((Decrypt3.main argv2 lib2 kenv2 denv2).1 ≠ 0
      ∧ stdoutOf (Decrypt3.main argv2 lib2 kenv2 denv2).2 = [])
  ∧ ((Sign3.main argv3 lib3 senv1).1 ≠ 0
      ∧ stdoutOf (Sign3.main argv3 lib3 senv1).2 = [])
  ∧ ((Sign3.main argv4 lib4 senv2).1 ≠ 0
      ∧ stdoutOf (Sign3.main argv4 lib4 senv2).2 = []) := by
  refine ⟨⟨?_, ?_⟩, ⟨?_, ?_⟩, ⟨?_, ?_⟩, ⟨?_, ?_⟩⟩
  · simp [decrypt3_main_ret, ha1, KeysMngrEnv.ok, hk1]
  · rw [stdoutOf_decrypt3_main]
    split
    · next hcond => simp [KeysMngrEnv.ok, hk1] at hcond
    · rfl
  · simp [decrypt3_main_ret, ha2, decrypt_file_ok, hn2]
  · rw [stdoutOf_decrypt3_main]
    split
    · exact stdoutOf_decrypt_file_fail _ _ (by simp [decrypt_file_ok, hn2])
    · rfl
  · simp [sign3_main_ret, ha3, sign_file_ok, hk3]
  · rw [stdoutOf_sign3_main]
    split
    · exact stdoutOf_sign_file_fail _ _ _ _ (by simp [sign_file_ok, hk3])
    · rfl
  · simp [sign3_main_ret, ha4, sign_file_ok, hn4]
  · rw [stdoutOf_sign3_main]
    split
    · exact stdoutOf_sign_file_fail _ _ _ _ (by simp [sign_file_ok, hn4])
    · rfl

/-- Witness for C5 at concrete failing environments. -/
theorem no_partial_output_on_failure_witness :
    ((Decrypt3.main argvDec okLib badKeyMngr okDecrypt).1 ≠ 0
      ∧ stdoutOf (Decrypt3.main argvDec okLib badKeyMngr okDecrypt).2 = [])
  ∧ ((Decrypt3.main argvDec okLib okKeysMngr noNodeDecrypt).1 ≠ 0
      ∧ stdoutOf (Decrypt3.main argvDec okLib okKeysMngr noNodeDecrypt).2 = [])
  ∧ ((Sign3.main argvSig okLib badKeySign).1 ≠ 0
      ∧ stdoutOf (Sign3.main argvSig okLib badKeySign).2 = [])
  ∧ ((Sign3.main argvSig okLib noNodeSign).1 ≠ 0
      ∧ stdoutOf (Sign3.main argvSig okLib noNodeSign).2 = []) :=
  no_partial_output_on_failure argvDec argvDec argvSig argvSig
    okLib okLib okLib okLib badKeyMngr okKeysMngr okDecrypt noNodeDecrypt
    badKeySign noNodeSign
    (by decide) (by decide) (by decide) (by decide) (by decide) (by decide)
    (by decide) (by decide)

/-- C6 counterexample: in a fully successful decrypt run the key is
loaded from the key-file argument but is never given a name —
`decrypt3.c` never calls `xmlSecKeySetName` — refuting the part of the
claim that says the key is named by its file path. -/
theorem key_mngr_naming_counterexample :
    (Decrypt3.main argvDec okLib okKeysMngr okDecrypt).1 = 0
  ∧ Event.keyLoad "key.pem" ∈ (Decrypt3.main argvDec okLib okKeysMngr okDecrypt).2
  ∧ Event.keySetName "key.pem" ∉ (Decrypt3.main argvDec okLib okKeysMngr okDecrypt).2 := by
  decide

/-- C6 (amended): in every run of the decrypt program that reaches the
key-manager stage, the key manager is created once, populated with
exactly one key loaded from the key-file argument (the key is given no
name), used for exactly one decrypt operation, and destroyed exactly
once — both on the success path and on the decrypt-failure path. -/
theorem key_mngr_lifecycle_amended
    (argv : List String) (lib : LibEnv) (kenv : KeysMngrEnv)
    (denv : DecryptEnv) (s : String)
    (ha : argv.length = 3) (hl : lib.ok = true) (hk : kenv.ok = true)
    (hp : denv.parsedDoc = some ⟨true⟩) (hn : denv.foundNode = true)
    (hc : denv.ctxCreated = true) :
    (Decrypt3.main argv lib kenv denv).2.count Event.mngrCreate = 1
  ∧ (Decrypt3.main argv lib kenv denv).2.count (Event.keyLoad (argv.getD 2 "")) = 1
  ∧ (Decrypt3.main argv lib kenv denv).2.count Event.keyAdopt = 1
  ∧ (Decrypt3.main argv lib kenv denv).2.count Event.decryptCall = 1
  ∧ (Decrypt3.main argv lib kenv denv).2.count Event.mngrDestroy = 1
  ∧ Event.keySetName s ∉ (Decrypt3.main argv lib kenv denv).2 := by
  rcases lib with ⟨lb1, lb2, lb3, lb4⟩
  rcases kenv with ⟨k1, k2, k3, k4⟩
  simp only [LibEnv.ok, Bool.and_eq_true] at hl
  obtain ⟨⟨⟨rfl, rfl⟩, rfl⟩, rfl⟩ := hl
  simp only [KeysMngrEnv.ok, Bool.and_eq_true] at hk
  obtain ⟨⟨⟨rfl, rfl⟩, rfl⟩, rfl⟩ := hk
  rcases denv with ⟨pd, fn, cc, dr, res, rr⟩
  subst hp
  subst hn
  subst hc
  rw [decrypt3_main_trace argv ⟨true, true, true, true⟩ ⟨true, true, true, true⟩
        ⟨some ⟨true⟩, true, true, ⟨dr, res, rr⟩⟩ ha rfl rfl]
  refine ⟨?_, ?_, ?_, ?_, ?_, ?_⟩ <;>
    (rcases res with _ | ⟨_ | l⟩ <;>
      by_cases hdr : dr < 0 <;>
      by_cases hrr : rr = 0 <;>
      simp [decrypt_file, create_keys_mngr, hdr, hrr,
            initTrace, shutdownTrace, Buffer.getData,
            List.count_append, List.count_cons])

/-- Witness for the amended C6 at the concrete successful run. -/
theorem key_mngr_lifecycle_amended_witness :
    (Decrypt3.main argvDec okLib okKeysMngr okDecrypt).2.count Event.mngrCreate = 1
  ∧ (Decrypt3.main argvDec okLib okKeysMngr okDecrypt).2.count
      (Event.keyLoad (argvDec.getD 2 "")) = 1
  ∧ (Decrypt3.main argvDec okLib okKeysMngr okDecrypt).2.count Event.keyAdopt = 1
  ∧ (Decrypt3.main argvDec okLib okKeysMngr okDecrypt).2.count Event.decryptCall = 1
  ∧ (Decrypt3.main argvDec okLib okKeysMngr okDecrypt).2.count Event.mngrDestroy = 1
  ∧ Event.keySetName "key.pem" ∉ (Decrypt3.main argvDec okLib okKeysMngr okDecrypt).2 :=
  key_mngr_lifecycle_amended argvDec okLib okKeysMngr okDecrypt "key.pem"
    (by decide) (by decide) (by decide) (by decide) (by decide) (by decide)

/-- C7: on the success path of each program, library teardown happens
strictly after the result is emitted to standard output, and the
teardown calls occur in the reverse order of the corresponding
initialization calls: xmlsec-crypto, then crypto, then xmlsec, then
libxslt/libxml. -/
theorem teardown_after_output
    (argv1 argv2 : List String) (lib1 lib2 : LibEnv) (kenv : KeysMngrEnv)
    (denv : DecryptEnv) (senv : SignEnv)
    (h1 : (Decrypt3.main argv1 lib1 kenv denv).1 = 0)
    (h2 : (Sign3.main argv2 lib2 senv).1 = 0) :
    (∃ mid, (Decrypt3.main argv1 lib1 kenv denv).2 =
        [Event.initParser, Event.secInit, Event.cryptoAppInit, Event.cryptoInit]
          ++ mid ++
          [Event.cryptoShutdown, Event.cryptoAppShutdown, Event.secShutdown,
           Event.xsltCleanup, Event.cleanupParser]
      ∧ stdoutOf (Decrypt3.main argv1 lib1 kenv denv).2 = stdoutOf mid)
  ∧ (∃ mid, (Sign3.main argv2 lib2 senv).2 =
        [Event.initParser, Event.secInit, Event.cryptoAppInit, Event.cryptoInit]
          ++ mid ++
          [Event.cryptoShutdown, Event.cryptoAppShutdown, Event.secShutdown,
           Event.xsltCleanup, Event.cleanupParser]
      ∧ stdoutOf (Sign3.main argv2 lib2 senv).2 = stdoutOf mid) := by
  constructor
  · rw [decrypt3_main_ret] at h1
    by_cases h3 : argv1.length = 3
    case neg => simp [h3] at h1
    rw [if_neg (by simp [h3])] at h1
    by_cases hcond : (lib1.ok && KeysMngrEnv.ok kenv && decrypt_file_ok denv) = true
    case neg => rw [if_neg hcond] at h1; exact absurd h1 (by decide)
    simp only [Bool.and_eq_true] at hcond
    obtain ⟨⟨hl, hk⟩, hdo⟩ := hcond
    rcases lib1 with ⟨lb1, lb2, lb3, lb4⟩
    simp only [LibEnv.ok, Bool.and_eq_true] at hl
    obtain ⟨⟨⟨rfl, rfl⟩, rfl⟩, rfl⟩ := hl
    refine ⟨(create_keys_mngr kenv (argv1.getD 2 "")).2
        ++ (decrypt_file denv (argv1.getD 1 "")).2 ++ [Event.mngrDestroy],
        ?_, ?_⟩
    · simp [Decrypt3.main, h3, create_keys_mngr_ret, hk, decrypt_file_ret, hdo,
            initTrace, shutdownTrace]
    · rw [stdoutOf_decrypt3_main, if_pos ⟨h3, rfl, hk⟩,
          stdoutOf_append, stdoutOf_append, stdoutOf_create_keys_mngr]
      simp [stdoutOf, Event.isOut]
  · rw [sign3_main_ret] at h2
    by_cases h4 : argv2.length = 4
    case neg => simp [h4] at h2
    rw [if_neg (by simp [h4])] at h2
    by_cases hcond : (lib2.ok && sign_file_ok senv) = true
    case neg => rw [if_neg hcond] at h2; exact absurd h2 (by decide)
    simp only [Bool.and_eq_true] at hcond
    obtain ⟨hl, hsf⟩ := hcond
    rcases lib2 with ⟨lb1, lb2, lb3, lb4⟩
    simp only [LibEnv.ok, Bool.and_eq_true] at hl
    obtain ⟨⟨⟨rfl, rfl⟩, rfl⟩, rfl⟩ := hl
    refine ⟨(sign_file senv (argv2.getD 1 "") (argv2.getD 2 "")
        (argv2.getD 3 "")).2, ?_, ?_⟩
    · simp [Sign3.main, h4, sign_file_ret, hsf, initTrace, shutdownTrace]
    · rw [stdoutOf_sign3_main, if_pos ⟨h4, rfl⟩]

/-- Witness for C7 at concrete successful runs of both programs. -/
theorem teardown_after_output_witness :
    (∃ mid, (Decrypt3.main argvDec okLib okKeysMngr okDecrypt).2 =
        [Event.initParser, Event.secInit, Event.cryptoAppInit, Event.cryptoInit]
          ++ mid ++
          [Event.cryptoShutdown, Event.cryptoAppShutdown, Event.secShutdown,
           Event.xsltCleanup, Event.cleanupParser]
      ∧ stdoutOf (Decrypt3.main argvDec okLib okKeysMngr okDecrypt).2 = stdoutOf mid)
  ∧ (∃ mid, (Sign3.main argvSig okLib okSign).2 =
        [Event.initParser, Event.secInit, Event.cryptoAppInit, Event.cryptoInit]
          ++ mid ++
          [Event.cryptoShutdown, Event.cryptoAppShutdown, Event.secShutdown,
           Event.xsltCleanup, Event.cleanupParser]
      ∧ stdoutOf (Sign3.main argvSig okLib okSign).2 = stdoutOf mid) :=
  teardown_after_output argvDec argvSig okLib okLib okKeysMngr okDecrypt okSign
    (by decide) (by decide)

/-- C8: the decrypt operation reports "decryption failed" and returns a
negative value not only when the library decrypt call returns a negative
value, but also when the call succeeds yet leaves the context's result
buffer NULL; a NULL result is never treated as success. -/
theorem null_result_never_success
    (f : String) (denv1 denv2 denv3 : DecryptEnv)
    (h1a : denv1.parsedDoc = some ⟨true⟩) (h1b : denv1.foundNode = true)
    (h1c : denv1.ctxCreated = true) (h1d : denv1.enc.result = none)
    (h1e : 0 ≤ denv1.enc.decryptRet)
    (h2a : denv2.parsedDoc = some ⟨true⟩) (h2b : denv2.foundNode = true)
    (h2c : denv2.ctxCreated = true) (h2d : denv2.enc.decryptRet < 0)
    (h3 : (decrypt_file denv3 f).1 = 0) :
    ((decrypt_file denv1 f).1 = -1
      ∧ ErrMsg.decryptFailed ∈ stderrOf (decrypt_file denv1 f).2)
  ∧ ((decrypt_file denv2 f).1 = -1
      ∧ ErrMsg.decryptFailed ∈ stderrOf (decrypt_file denv2 f).2)
  ∧ denv3.enc.result.isSome = true := by
  refine ⟨⟨?_, ?_⟩, ⟨?_, ?_⟩, ?_⟩
  · simp [decrypt_file, h1a, h1b, h1c, h1d]
  · simp [decrypt_file, h1a, h1b, h1c, h1d, mem_stderrOf]
  · rcases hres : denv2.enc.result with _ | b <;>
      simp [decrypt_file, h2a, h2b, h2c, h2d, hres]
  · rcases hres : denv2.enc.result with _ | b <;>
      simp [decrypt_file, h2a, h2b, h2c, h2d, hres, mem_stderrOf]
  · rw [decrypt_file_ret] at h3
    by_cases hok : decrypt_file_ok denv3
    · simp only [decrypt_file_ok, Bool.and_eq_true] at hok
      exact hok.1.2
    · simp [hok] at h3

/-- Witness for C8: result NULL with a non-negative decrypt return, a
negative decrypt return, and a successful run. -/
theorem null_result_never_success_witness :
    ((decrypt_file nullResultDecrypt "enc.xml").1 = -1
      ∧ ErrMsg.decryptFailed ∈ stderrOf (decrypt_file nullResultDecrypt "enc.xml").2)
  ∧ ((decrypt_file failDecrypt "enc.xml").1 = -1
      ∧ ErrMsg.decryptFailed ∈ stderrOf (decrypt_file failDecrypt "enc.xml").2)
  ∧ okDecrypt.enc.result.isSome = true :=
  null_result_never_success "enc.xml" nullResultDecrypt failDecrypt okDecrypt
    (by decide) (by decide) (by decide) (by decide) (by decide) (by decide)
    (by decide) (by decide) (by decide) (by decide)

/-- C9: if the decrypt operation succeeds with a non-replaced (binary)
result whose buffer data pointer is NULL, the program writes nothing to
standard output and still exits 0; otherwise it writes exactly the
buffer's size in bytes from the buffer's data. -/
theorem binary_result_output
    (f : String) (argv : List String) (lib : LibEnv) (kenv : KeysMngrEnv)
    (denv1 denv2 : DecryptEnv) (b1 b2 : Buffer) (l : List Nat)
    (ha : argv.length = 3) (hl : lib.ok = true) (hk : kenv.ok = true)
    (h1 : (decrypt_file denv1 (argv.getD 1 "")).1 = 0)
    (hr1 : denv1.enc.resultReplaced = 0) (hb1 : denv1.enc.result = some b1)
    (hd1 : b1.bufData = none)
    (h2 : (decrypt_file denv2 f).1 = 0)
    (hr2 : denv2.enc.resultReplaced = 0) (hb2 : denv2.enc.result = some b2)
    (hd2 : b2.bufData = some l) :
    ((Decrypt3.main argv lib kenv denv1).1 = 0
      ∧ stdoutOf (Decrypt3.main argv lib kenv denv1).2 = [])
  ∧ (stdoutOf (decrypt_file denv2 f).2 = [Event.writeBytes l]
      ∧ l.length = b2.getSize) := by
  have hok1 : decrypt_file_ok denv1 = true := by
    rw [decrypt_file_ret] at h1
    by_cases hx : decrypt_file_ok denv1
    · exact hx
    · simp [hx] at h1
  refine ⟨⟨?_, ?_⟩, ?_, ?_⟩
  · simp [decrypt3_main_ret, ha, hl, hk, hok1]
  · rw [stdoutOf_decrypt3_main, if_pos ⟨ha, hl, hk⟩,
        decrypt_file_stdout_char _ _ b1 h1 hb1]
    simp [hr1, bufferWrites, Buffer.getData, hd1]
  · rw [decrypt_file_stdout_char _ _ b2 h2 hb2]
    simp [hr2, bufferWrites, Buffer.getData, hd2]
  · rcases b2 with ⟨bd⟩
    simp at hd2
    simp [Buffer.getSize, hd2]

/-- Witness for C9: a NULL-data binary result and a three-byte binary
result. -/
theorem binary_result_output_witness :
    ((Decrypt3.main argvDec okLib okKeysMngr nullDataDecrypt).1 = 0
      ∧ stdoutOf (Decrypt3.main argvDec okLib okKeysMngr nullDataDecrypt).2 = [])
  ∧ (stdoutOf (decrypt_file okDecrypt "enc.xml").2 = [Event.writeBytes [1, 2, 3]]
      ∧ [1, 2, 3].length = Buffer.getSize ⟨some [1, 2, 3]⟩) :=
  binary_result_output "enc.xml" argvDec okLib okKeysMngr nullDataDecrypt
    okDecrypt ⟨none⟩ ⟨some [1, 2, 3]⟩ [1, 2, 3]
    (by decide) (by decide) (by decide) (by decide) (by decide) (by decide)
    (by decide) (by decide) (by decide) (by decide) (by decide)

/-- C10: an input that parses but yields a document with no root element
is treated exactly like an unparsable file by both programs: the
"unable to parse file" message is the only standard-error output and the
operation returns a negative value. -/
theorem rootless_doc_parse_error
    (f x k c : String) (denv1 denv0 : DecryptEnv) (senv1 senv0 : SignEnv)
    (hd1 : denv1.parsedDoc = some ⟨false⟩) (hd0 : denv0.parsedDoc = none)
    (hs1 : senv1.parsedDoc = some ⟨false⟩) (hs0 : senv0.parsedDoc = none) :
    ((decrypt_file denv1 f).1 = -1
      ∧ stderrOf (decrypt_file denv1 f).2 = [ErrMsg.parseFailed f]
      ∧ stderrOf (decrypt_file denv0 f).2 = [ErrMsg.parseFailed f]
      ∧ (decrypt_file denv0 f).1 = -1)
  ∧ ((sign_file senv1 x k c).1 = -1
      ∧ stderrOf (sign_file senv1 x k c).2 = [ErrMsg.parseFailed x]
      ∧ stderrOf (sign_file senv0 x k c).2 = [ErrMsg.parseFailed x]
      ∧ (sign_file senv0 x k c).1 = -1) := by
  refine ⟨⟨?_, ?_, ?_, ?_⟩, ⟨?_, ?_, ?_, ?_⟩⟩ <;>
    simp [decrypt_file, sign_file, hd1, hd0, hs1, hs0, stderrOf]

/-- Witness for C10 at concrete rootless and unparsable documents. -/
theorem rootless_doc_parse_error_witness :
    ((decrypt_file rootlessDecrypt "enc.xml").1 = -1
      ∧ stderrOf (decrypt_file rootlessDecrypt "enc.xml").2 = [ErrMsg.parseFailed "enc.xml"]
      ∧ stderrOf (decrypt_file noParseDecrypt "enc.xml").2 = [ErrMsg.parseFailed "enc.xml"]
      ∧ (decrypt_file noParseDecrypt "enc.xml").1 = -1)
  ∧ ((sign_file rootlessSign "doc.xml" "key.pem" "cert.pem").1 = -1
      ∧ stderrOf (sign_file rootlessSign "doc.xml" "key.pem" "cert.pem").2
          = [ErrMsg.parseFailed "doc.xml"]
      ∧ stderrOf (sign_file noParseSign "doc.xml" "key.pem" "cert.pem").2
          = [ErrMsg.parseFailed "doc.xml"]
      ∧ (sign_file noParseSign "doc.xml" "key.pem" "cert.pem").1 = -1) :=
  rootless_doc_parse_error "enc.xml" "doc.xml" "key.pem" "cert.pem"
    rootlessDecrypt noParseDecrypt rootlessSign noParseSign
    (by decide) (by decide) (by decide) (by decide)

end JBank
